import Mathlib

/-!
Shallow embedding of the health-monitor prediction service
(`app/services/prediction_service.py`, `app/models/ml_models.py`,
`app/models/health_model.py`) and proofs about it.

Python floats are modelled by `ℚ` wherever the source only adds, multiplies
and compares (threshold logic, point accumulation, rounding to fixed decimal
places), and by `ℝ` where the source uses `np.log`, `np.exp` and real
exponentiation (the Framingham-style formula).  Wall-clock measurements
(`time.time()` differences) are explicit parameters: the elapsed time of a
call is an input from the environment.  Python's `round(x, n)` (banker's
rounding) is modelled by round-half-up `round`; no statement proved here
depends on the behaviour at exact ties.
-/

namespace HealthMonitor

/-- Input model `HealthDataInput` from `app/models/health_model.py`:
seven vital-sign fields, `age` an integer, the rest floats. -/
structure HealthDataInput where
  heart_rate : ℚ
  temperature : ℚ
  spo2 : ℚ
  age : ℤ
  blood_pressure_systolic : ℚ
  blood_pressure_diastolic : ℚ
  cholesterol : ℚ
deriving DecidableEq, Repr

/-- The pydantic range validators of `HealthDataInput`: every field is
range-checked before a request reaches the prediction service. -/
def ValidInput (v : HealthDataInput) : Prop :=
  30 ≤ v.heart_rate ∧ v.heart_rate ≤ 200 ∧
  35 ≤ v.temperature ∧ v.temperature ≤ 42 ∧
  70 ≤ v.spo2 ∧ v.spo2 ≤ 100 ∧
  1 ≤ v.age ∧ v.age ≤ 120 ∧
  70 ≤ v.blood_pressure_systolic ∧ v.blood_pressure_systolic ≤ 250 ∧
  40 ≤ v.blood_pressure_diastolic ∧ v.blood_pressure_diastolic ≤ 150 ∧
  100 ≤ v.cholesterol ∧ v.cholesterol ≤ 400

instance (v : HealthDataInput) : Decidable (ValidInput v) := by
  unfold ValidInput; infer_instance

/-- Python's `round(x, 1)`, rounding to one decimal place. -/
def round1 {α : Type} [LinearOrderedField α] [FloorRing α] (x : α) : α :=
  (round (10 * x) : ℤ) / 10

/-- Python's `round(x, 2)`, rounding to two decimal places. -/
def round2 {α : Type} [LinearOrderedField α] [FloorRing α] (x : α) : α :=
  (round (100 * x) : ℤ) / 100

/-! ### Rule-based fallback engine (`_rule_based_prediction`) -/

/-- The age-adjusted normal heart-rate band (`hr_normal` in
`_rule_based_prediction`): `age<18 → (70,110)`, `age>65 → (60,90)`,
otherwise `(60,100)`. -/
def hr_normal (age : ℤ) : ℚ × ℚ :=
  if age < 18 then (70, 110) else if 65 < age then (60, 90) else (60, 100)

/-- The `critical_factors` list built by `_rule_based_prediction`, in the
source's appending order. -/
def critical_factors (v : HealthDataInput) : List String :=
  (if v.heart_rate < (hr_normal v.age).1 - 20 ∨ (hr_normal v.age).2 + 40 < v.heart_rate then
    ["heart rate"] else []) ++
  (if v.temperature < 35 ∨ 38 < v.temperature then ["temperature"] else []) ++
  (if v.spo2 < 90 then ["oxygen level"] else []) ++
  (if 140 ≤ v.blood_pressure_systolic ∨ 90 ≤ v.blood_pressure_diastolic then
    ["blood pressure"] else []) ++
  (if 240 ≤ v.cholesterol then ["cholesterol"] else [])

/-- The `warning_factors` list built by `_rule_based_prediction`; each entry
is appended in the `elif` branch of its vital's check, so the critical
condition is negated in each guard. -/
def warning_factors (v : HealthDataInput) : List String :=
  (if ¬(v.heart_rate < (hr_normal v.age).1 - 20 ∨ (hr_normal v.age).2 + 40 < v.heart_rate) ∧
      ¬((hr_normal v.age).1 ≤ v.heart_rate ∧ v.heart_rate ≤ (hr_normal v.age).2) then
    ["heart rate"] else []) ++
  (if ¬(v.temperature < 35 ∨ 38 < v.temperature) ∧
      (v.temperature < 36.1 ∨ 37.2 < v.temperature) then ["temperature"] else []) ++
  (if ¬(v.spo2 < 90) ∧ v.spo2 < 95 then ["oxygen level"] else []) ++
  (if ¬(140 ≤ v.blood_pressure_systolic ∨ 90 ≤ v.blood_pressure_diastolic) ∧
      (120 ≤ v.blood_pressure_systolic ∨ 80 ≤ v.blood_pressure_diastolic) then
    ["blood pressure"] else []) ++
  (if ¬(240 ≤ v.cholesterol) ∧ 200 ≤ v.cholesterol then ["cholesterol"] else [])

/-- The `features` sub-dictionary echoed inside `prediction_details`. -/
structure FeatureEcho where
  heart_rate : ℚ
  temperature : ℚ
  spo2 : ℚ
  age : ℤ
  blood_pressure : String
  cholesterol : ℚ
deriving DecidableEq, Repr

/-- The echoed feature dictionary built by both prediction paths. -/
def featureEcho (v : HealthDataInput) : FeatureEcho :=
  { heart_rate := v.heart_rate
    temperature := v.temperature
    spo2 := v.spo2
    age := v.age
    blood_pressure :=
      toString v.blood_pressure_systolic ++ "/" ++ toString v.blood_pressure_diastolic
    cholesterol := v.cholesterol }

/-- The `prediction_details` dictionary of a `HealthPrediction`; the
rule-based path additionally carries the `risk_factors` entry. -/
structure PredictionDetails where
  model_used : String
  prediction_time_ms : ℚ
  features : FeatureEcho
  risk_factors : Option (List String × List String)
deriving DecidableEq, Repr

/-- Output model `HealthPrediction` from `app/models/health_model.py`. -/
structure HealthPrediction where
  health_status : String
  confidence_score : ℚ
  suggested_action : String
  prediction_details : PredictionDetails
deriving DecidableEq, Repr

/-- Embeds `_rule_based_prediction`: deterministic threshold scoring.  `dt` is the
wall-clock duration (seconds) measured by the surrounding
`time.time()` calls. -/
def rule_based_prediction (v : HealthDataInput) (dt : ℚ) : HealthPrediction :=
  let crit := critical_factors v
  let warn := warning_factors v
  let status :=
    if crit ≠ [] then "Critical" else if 2 ≤ warn.length then "Warning" else "Normal"
  let confidence : ℚ :=
    if crit ≠ [] then 0.9 else if 2 ≤ warn.length then 0.85 else 0.95
  let action :=
    if crit ≠ [] then
      "Seek immediate medical attention. Critical: " ++ String.intercalate ", " crit
    else if 2 ≤ warn.length then
      "Monitor closely and consult a doctor. Concerns: " ++ String.intercalate ", " warn
    else
      "Normal - no immediate action needed. Continue regular check-ups."
  { health_status := status
    confidence_score := confidence
    suggested_action := action
    prediction_details :=
      { model_used := "rule_based"
        prediction_time_ms := round2 (dt * 1000)
        features := featureEcho v
        risk_factors := some (crit, warn) } }

/-! ### Classifier adapter (`app/models/ml_models.py`) and orchestrator -/

/-- A classifier failure: artifact not loaded, or a runtime inference
fault (the exceptions raised by `predict_rf` / `predict_nn`). -/
inductive ClassifierError where
  | notLoaded
  | inferenceError
deriving DecidableEq, Repr

/-- An opaque trained predictor: feature vector to (class index, confidence),
or a runtime failure. -/
def Classifier : Type := List ℚ → Except ClassifierError (ℤ × ℚ)

/-- The process-lifetime model state of `HealthMLModels` together with the
service's `models_loaded` flag. -/
structure ModelEnv where
  models_loaded : Bool
  rf_model : Option Classifier
  nn_model : Option Classifier

/-- The feature vector built by `predict_health_status` (fixed order:
heart rate, temperature, spo2, age, systolic, diastolic, cholesterol). -/
def features (v : HealthDataInput) : List ℚ :=
  [v.heart_rate, v.temperature, v.spo2, (v.age : ℚ),
   v.blood_pressure_systolic, v.blood_pressure_diastolic, v.cholesterol]

/-- Embeds `HealthMLModels.predict_rf`: raises if the random-forest artifact is
missing, otherwise runs it. -/
def predict_rf (env : ModelEnv) (feats : List ℚ) : Except ClassifierError (ℤ × ℚ) :=
  match env.rf_model with
  | none => .error .notLoaded
  | some f => f feats

/-- Embeds `HealthMLModels.predict_nn`: raises if the neural-network artifact is
missing; on an inference exception it silently falls back to
`predict_rf` when the random-forest artifact is present, else raises. -/
def predict_nn (env : ModelEnv) (feats : List ℚ) : Except ClassifierError (ℤ × ℚ) :=
  match env.nn_model with
  | none => .error .notLoaded
  | some g =>
    match g feats with
    | .ok r => .ok r
    | .error _ =>
      match env.rf_model with
      | some f => f feats
      | none => .error .notLoaded

/-- Embeds `self.status_mapping.get(prediction, "Normal")`. -/
def status_mapping (p : ℤ) : String :=
  if p = 0 then "Normal" else if p = 1 then "Warning" else if p = 2 then "Critical"
  else "Normal"

/-- Embeds `self.action_mapping.get(health_status, "Consult a doctor")`. -/
def action_mapping (status : String) : String :=
  if status = "Normal" then "Normal - no action needed"
  else if status = "Warning" then
    "Monitor closely and consider consulting a doctor if symptoms persist"
  else if status = "Critical" then "Seek immediate medical attention"
  else "Consult a doctor"

/-- The `HealthPrediction` built on the ML path of `predict_health_status`
from a classifier's (class index, confidence) output. -/
def ml_prediction (v : HealthDataInput) (model_used : String) (p : ℤ) (c : ℚ)
    (dt : ℚ) : HealthPrediction :=
  let status := status_mapping p
  { health_status := status
    confidence_score := c
    suggested_action := action_mapping status
    prediction_details :=
      { model_used := model_used
        prediction_time_ms := round2 (dt * 1000)
        features := featureEcho v
        risk_factors := none } }

/-- Embeds `PredictionService.predict_health_status`: rule-based when models are
not loaded; otherwise random forest first, else neural network, with the
surrounding `try/except` sending any classifier failure to the rule-based
fallback.  `dt_ml` is the measured duration of the ML path, `dt_rb` that of
a rule-based call. -/
def predict_health_status (env : ModelEnv) (v : HealthDataInput)
    (dt_ml dt_rb : ℚ) : HealthPrediction :=
  if env.models_loaded = false then rule_based_prediction v dt_rb
  else
    match env.rf_model with
    | some _ =>
      match predict_rf env (features v) with
      | .ok (p, c) => ml_prediction v "random_forest" p c dt_ml
      | .error _ => rule_based_prediction v dt_rb
    | none =>
      match env.nn_model with
      | some _ =>
        match predict_nn env (features v) with
        | .ok (p, c) => ml_prediction v "neural_network" p c dt_ml
        | .error _ => rule_based_prediction v dt_rb
      | none => rule_based_prediction v dt_rb

/-! ### CVD risk scorers -/

/-- Result of `_calculate_traditional_cvd_risk`. -/
structure TraditionalRisk where
  score : ℤ
  level : String
  factors : List String
deriving DecidableEq, Repr

/-- The point accumulation of `_calculate_traditional_cvd_risk`
(`risk_score`), written as the sum of its five sequential increments. -/
def traditional_score (v : HealthDataInput) : ℤ :=
  (if 65 ≤ v.age then 3 else if 55 ≤ v.age then 2 else if 45 ≤ v.age then 1 else 0) +
  (if 140 ≤ v.blood_pressure_systolic ∨ 90 ≤ v.blood_pressure_diastolic then 3
   else if 130 ≤ v.blood_pressure_systolic ∨ 85 ≤ v.blood_pressure_diastolic then 2
   else 0) +
  (if 240 ≤ v.cholesterol then 3 else if 200 ≤ v.cholesterol then 2 else 0) +
  (if 100 < v.heart_rate then 2 else 0) +
  (if v.spo2 < 95 then 2 else 0)

/-- The `factors` description list of `_calculate_traditional_cvd_risk`. -/
def traditional_factors (v : HealthDataInput) : List String :=
  (if 65 ≤ v.age then ["Age >=65 years"]
   else if 55 ≤ v.age then ["Age 55-64 years"]
   else if 45 ≤ v.age then ["Age 45-54 years"] else []) ++
  (if 140 ≤ v.blood_pressure_systolic ∨ 90 ≤ v.blood_pressure_diastolic then
    ["Hypertension (>=140/90 mmHg)"]
   else if 130 ≤ v.blood_pressure_systolic ∨ 85 ≤ v.blood_pressure_diastolic then
    ["Prehypertension"] else []) ++
  (if 240 ≤ v.cholesterol then ["High cholesterol (>=240 mg/dL)"]
   else if 200 ≤ v.cholesterol then ["Borderline high cholesterol"] else []) ++
  (if 100 < v.heart_rate then ["Elevated resting heart rate"] else []) ++
  (if v.spo2 < 95 then ["Low oxygen saturation (<95%)"] else [])

/-- Embeds `_calculate_traditional_cvd_risk`: points, level thresholds, factors. -/
def calculate_traditional_cvd_risk (v : HealthDataInput) : TraditionalRisk :=
  let s := traditional_score v
  { score := s
    level :=
      if 10 ≤ s then "very_high" else if 7 ≤ s then "high"
      else if 4 ≤ s then "moderate" else "low"
    factors := traditional_factors v }

/-- Result of `_calculate_framingham_score` (the constant `note` string
of the returned dictionary is omitted). -/
structure FraminghamRisk where
  percentage : ℝ
  level : String

/-- The `sum_factors` local of `_calculate_framingham_score`:
`age*0.0483 + log(chol)*0.6545 + log(sys)*0.0221 + log(50)*(-0.8396)`. -/
noncomputable def framingham_sum_factors (v : HealthDataInput) : ℝ :=
  (v.age : ℝ) * 0.0483 + Real.log (v.cholesterol : ℝ) * 0.6545 +
    Real.log (v.blood_pressure_systolic : ℝ) * 0.0221 + Real.log 50 * (-0.8396)

/-- The clamped `risk_percentage` local of `_calculate_framingham_score`:
`max(1, min(30, 100 * (1 - 0.88936 ** exp(sum_factors - 3.0618))))`. -/
noncomputable def framingham_percentage (v : HealthDataInput) : ℝ :=
  max 1 (min 30 (100 * (1 - (0.88936 : ℝ) ^ Real.exp (framingham_sum_factors v - 3.0618))))

/-- Embeds `_calculate_framingham_score`: the returned percentage is rounded to
one decimal; the level is taken from the unrounded clamped percentage. -/
noncomputable def calculate_framingham_score (v : HealthDataInput) : FraminghamRisk :=
  let rp := framingham_percentage v
  { percentage := round1 rp
    level := if 20 ≤ rp then "high" else if 10 ≤ rp then "moderate" else "low" }

/-- Result of `_calculate_ai_cvd_risk`. -/
structure AIRisk where
  percentage : ℚ
  level : String
  confidence : ℚ
  ml_based : Bool
deriving DecidableEq, Repr

/-- The pattern-heuristic `risk_score` of the fallback branch of
`_calculate_ai_cvd_risk`. -/
def ai_pattern_score (v : HealthDataInput) : ℚ :=
  (if 130 ≤ v.blood_pressure_systolic ∧ 200 ≤ v.cholesterol then 4 else 0) +
  (if 50 ≤ v.age then
    ((if 130 ≤ v.blood_pressure_systolic then 1 else 0) +
     (if 200 ≤ v.cholesterol then 1 else 0) +
     (if 80 < v.heart_rate then 1 else 0) +
     (if v.spo2 < 96 then 1 else 0) : ℚ) * 1.5
   else 0) +
  (if 90 < v.heart_rate ∧ v.spo2 < 95 then 3 else 0)

/-- Embeds `_calculate_ai_cvd_risk`: the classifier branch maps the random-forest
class to a fixed percentage/level; any failure (or absent artifact) falls
through to the deterministic pattern heuristic. -/
def calculate_ai_cvd_risk (env : ModelEnv) (v : HealthDataInput) : AIRisk :=
  let heuristic : AIRisk :=
    let rp := min 30 (ai_pattern_score v * 3.5)
    { percentage := round1 rp
      level := if 20 ≤ rp then "high" else if 10 ≤ rp then "moderate" else "low"
      confidence := 0.75
      ml_based := false }
  if env.models_loaded = true ∧ env.rf_model.isSome = true then
    match predict_rf env (features v) with
    | .ok (p, c) =>
      { percentage := if p = 2 then 25 else if p = 1 then 15 else 5
        level := if p = 2 then "high" else if p = 1 then "moderate" else "low"
        confidence := c
        ml_based := true }
    | .error _ => heuristic
  else heuristic

/-! ### Risk combiner (`_combine_risk_scores`) -/

/-- The shape of a score dictionary as seen by `_combine_risk_scores`:
a `level` key always present, `percentage` and `confidence` keys
optional (`Option` models dictionary-key absence). -/
structure CVDScoreDict where
  level : String
  percentage : Option ℝ
  confidence : Option ℚ

/-- Traditional score as the dictionary passed to the combiner:
no percentage, no confidence key. -/
def traditionalDict (t : TraditionalRisk) : CVDScoreDict :=
  { level := t.level, percentage := none, confidence := none }

/-- Framingham score as the dictionary passed to the combiner. -/
def framinghamDict (f : FraminghamRisk) : CVDScoreDict :=
  { level := f.level, percentage := some f.percentage, confidence := none }

/-- AI score as the dictionary passed to the combiner. -/
def aiDict (a : AIRisk) : CVDScoreDict :=
  { level := a.level, percentage := some (a.percentage : ℝ), confidence := some a.confidence }

/-- Embeds `level_scores.get(level, 1)`: ordinal of a level name, defaulting to 1. -/
def level_score (level : String) : ℚ :=
  if level = "low" then 1 else if level = "moderate" then 2
  else if level = "high" then 3 else if level = "very_high" then 4 else 1

/-- Result of `_combine_risk_scores` (the `description` string, pure
formatting of the level and percentage, is omitted). -/
structure CombinedRisk where
  level : String
  percentage : ℝ
  confidence : ℚ

/-- The `weighted_score` of `_combine_risk_scores`. -/
def combined_weighted_score (t f a : CVDScoreDict) : ℚ :=
  level_score t.level * 0.3 + level_score f.level * 0.4 + level_score a.level * 0.3

/-- Embeds `_combine_risk_scores`: weighted level consensus, average of the
percentages present, confidence from the AI method when positive. -/
noncomputable def combine_risk_scores (t f a : CVDScoreDict) : CombinedRisk :=
  let w := combined_weighted_score t f a
  let percentages : List ℝ :=
    (match f.percentage with | some p => [p] | none => []) ++
    (match a.percentage with | some p => [p] | none => [])
  let avg : ℝ := if percentages = [] then 10 else percentages.sum / percentages.length
  { level :=
      if 3.5 ≤ w then "Very High" else if 2.5 ≤ w then "High"
      else if 1.5 ≤ w then "Moderate" else "Low"
    percentage := round1 avg
    confidence := if 0 < a.confidence.getD 0 then a.confidence.getD 0 else 0.8 }

/-! ### Risk factors and recommendations -/

/-- A `RiskFactor` dictionary as built by `_identify_cvd_risk_factors`. -/
structure RiskFactor where
  factor : String
  severity : String
  value : String
  target : String
  modifiable : Bool
deriving DecidableEq, Repr

/-- The Hypertension risk factor entry. -/
def hypertensionFactor (v : HealthDataInput) : RiskFactor :=
  { factor := "Hypertension", severity := "Major"
    value := toString v.blood_pressure_systolic ++ "/" ++
      toString v.blood_pressure_diastolic ++ " mmHg"
    target := "<120/80 mmHg", modifiable := true }

/-- The High Cholesterol risk factor entry. -/
def highCholesterolFactor (v : HealthDataInput) : RiskFactor :=
  { factor := "High Cholesterol", severity := "Major"
    value := toString v.cholesterol ++ " mg/dL"
    target := "<200 mg/dL", modifiable := true }

/-- The Advanced Age risk factor entry. -/
def advancedAgeFactor (v : HealthDataInput) : RiskFactor :=
  { factor := "Advanced Age", severity := "Major"
    value := toString v.age ++ " years"
    target := "N/A", modifiable := false }

/-- The Elevated Resting Heart Rate risk factor entry. -/
def elevatedHRFactor (v : HealthDataInput) : RiskFactor :=
  { factor := "Elevated Resting Heart Rate", severity := "Minor"
    value := toString v.heart_rate ++ " BPM"
    target := "60-80 BPM", modifiable := true }

/-- The Low Oxygen Saturation risk factor entry. -/
def lowSpo2Factor (v : HealthDataInput) : RiskFactor :=
  { factor := "Low Oxygen Saturation", severity := "Minor"
    value := toString v.spo2 ++ "%"
    target := ">95%", modifiable := true }

/-- The detection-order list built by `_identify_cvd_risk_factors`
before the severity sort. -/
def detected_risk_factors (v : HealthDataInput) : List RiskFactor :=
  (if 140 ≤ v.blood_pressure_systolic ∨ 90 ≤ v.blood_pressure_diastolic then
    [hypertensionFactor v] else []) ++
  (if 240 ≤ v.cholesterol then [highCholesterolFactor v] else []) ++
  (if 65 ≤ v.age then [advancedAgeFactor v] else []) ++
  (if 80 < v.heart_rate then [elevatedHRFactor v] else []) ++
  (if v.spo2 < 95 then [lowSpo2Factor v] else [])

/-- The sort key of `risk_factors.sort(...)`: 0 for Major, 1 otherwise. -/
def severity_key (f : RiskFactor) : Nat :=
  if f.severity = "Major" then 0 else 1

/-- Embeds `_identify_cvd_risk_factors`: detect, then stable-sort Major first
(Python's stable `list.sort` is modelled by `List.mergeSort`). -/
def identify_cvd_risk_factors (v : HealthDataInput) : List RiskFactor :=
  (detected_risk_factors v).mergeSort (fun a b => severity_key a ≤ severity_key b)

/-- Embeds `_generate_cvd_recommendations`: tier-conditioned entries, then
factor-specific entries, then general entries (when the level is not
"Low"), truncated to the first six. -/
def generate_cvd_recommendations (level : String) (risk_factors : List RiskFactor) :
    List String :=
  let tier :=
    if level = "High" ∨ level = "Very High" then
      ["Schedule an appointment with a cardiologist within 2 weeks",
       "Request complete cardiac workup including ECG and stress test"]
    else if level = "Moderate" then
      ["Discuss cardiovascular risk with your primary care physician",
       "Consider preventive cardiology consultation"]
    else []
  let has_hypertension := risk_factors.any (fun f => f.factor = "Hypertension")
  let has_high_chol := risk_factors.any (fun f => f.factor = "High Cholesterol")
  let has_high_hr := risk_factors.any (fun f => f.factor = "Elevated Resting Heart Rate")
  let specific :=
    (if has_hypertension then
      ["Monitor blood pressure daily and maintain a log",
       "Reduce sodium intake to <2,300mg per day",
       "Discuss blood pressure medications with your doctor"] else []) ++
    (if has_high_chol then
      ["Adopt a heart-healthy diet (Mediterranean or DASH)",
       "Engage in 150 minutes of moderate exercise weekly",
       "Consider statin therapy if lifestyle changes insufficient"] else []) ++
    (if has_high_hr then
      ["Practice stress reduction techniques (meditation, yoga)",
       "Limit caffeine and stimulant intake"] else [])
  let general :=
    if level ≠ "Low" then
      ["If you smoke, seek help to quit immediately",
       "Maintain a healthy weight (BMI 18.5-24.9)",
       "Ensure 7-9 hours of quality sleep nightly"]
    else []
  (tier ++ specific ++ general).take 6

/-- The assessment dictionary returned by `predict_heart_disease_risk`. -/
structure CVDAssessment where
  risk_level : String
  risk_percentage : ℝ
  confidence_score : ℚ
  risk_factors : List RiskFactor
  recommendations : List String
  traditional : TraditionalRisk
  framingham : FraminghamRisk
  ai_based : AIRisk
  processing_time_ms : ℚ

/-- Embeds `PredictionService.predict_heart_disease_risk`: the full CVD pipeline.
`dt` is the measured wall-clock duration (seconds). -/
noncomputable def predict_heart_disease_risk (env : ModelEnv) (v : HealthDataInput)
    (dt : ℚ) : CVDAssessment :=
  let traditional := calculate_traditional_cvd_risk v
  let framingham := calculate_framingham_score v
  let ai := calculate_ai_cvd_risk env v
  let combined :=
    combine_risk_scores (traditionalDict traditional) (framinghamDict framingham) (aiDict ai)
  let risk_factors := identify_cvd_risk_factors v
  { risk_level := combined.level
    risk_percentage := combined.percentage
    confidence_score := combined.confidence
    risk_factors := risk_factors
    recommendations := generate_cvd_recommendations combined.level risk_factors
    traditional := traditional
    framingham := framingham
    ai_based := ai
    processing_time_ms := round2 (dt * 1000) }

/-- Modelled from the spec: the ordinal of the spec's level mapping
(Low 1, Moderate 2, High 3, VeryHigh 4), with no default for other
strings; used to compare the combiner against the spec's wording. -/
def spec_level_ordinal (level : String) : ℚ :=
  if level = "low" then 1 else if level = "moderate" then 2
  else if level = "high" then 3 else if level = "very_high" then 4 else 0

/-! ### Sample inputs used by witnesses and counterexamples -/

/-- Normal-range vitals: heart rate 75, temperature 37, spo2 98, age 30,
blood pressure 115/75, cholesterol 180. -/
def vSample : HealthDataInput :=
  { heart_rate := 75, temperature := 37, spo2 := 98, age := 30
    blood_pressure_systolic := 115, blood_pressure_diastolic := 75, cholesterol := 180 }

/-- A random-forest artifact that fails with a runtime inference error. -/
def rfFailing : Classifier := fun _ => .error .inferenceError

/-- A neural-network artifact that always succeeds with class 0. -/
def nnConstant : Classifier := fun _ => .ok (0, 9/10)

/-- Environment with no classifier artifacts loaded. -/
def envNoModels : ModelEnv :=
  { models_loaded := false, rf_model := none, nn_model := none }

/-- Environment with loading succeeded but neither artifact present. -/
def envLoadedEmpty : ModelEnv :=
  { models_loaded := true, rf_model := none, nn_model := none }

/-- Environment where both artifacts are loaded and the random forest
fails at runtime while the neural network would succeed. -/
def envBothRfFails : ModelEnv :=
  { models_loaded := true, rf_model := some rfFailing, nn_model := some nnConstant }

/-! ## Theorems -/

/-- Membership in a conditional singleton list. -/
theorem mem_cond_singleton {α : Type} (c : Prop) [Decidable c] (a x : α) :
    (a ∈ if c then [x] else ([] : List α)) ↔ c ∧ a = x := by
  split_ifs with h <;> simp [h]

/-- C3:for every valid `VitalSigns`, the rule-based engine marks each
vital critical/warning exactly per the specified thresholds (heart rate
against the age-adjusted band, critical below band.low−20 or above
band.high+40, warning merely outside the band; temperature critical
outside [35.0, 38.0], warning outside [36.1, 37.2]; SpO2 critical iff
< 90, warning if < 95; blood pressure critical if systolic ≥ 140 or
diastolic ≥ 90, warning if systolic ≥ 120 or diastolic ≥ 80;
cholesterol critical if ≥ 240, warning if ≥ 200), and returns Critical
with confidence 0.90 when any critical factor exists, else Warning with
confidence 0.85 when at least two warning factors exist, else Normal
with confidence 0.95. -/
theorem rule_based_engine_spec (v : HealthDataInput) (hv : ValidInput v) (dt : ℚ) :
    hr_normal v.age =
      (if v.age < 18 then ((70 : ℚ), (110 : ℚ))
       else if 65 < v.age then (60, 90) else (60, 100)) ∧
    ("heart rate" ∈ critical_factors v ↔
      v.heart_rate < (hr_normal v.age).1 - 20 ∨ (hr_normal v.age).2 + 40 < v.heart_rate) ∧
    ("heart rate" ∈ warning_factors v ↔
      ¬(v.heart_rate < (hr_normal v.age).1 - 20 ∨ (hr_normal v.age).2 + 40 < v.heart_rate) ∧
      ¬((hr_normal v.age).1 ≤ v.heart_rate ∧ v.heart_rate ≤ (hr_normal v.age).2)) ∧
    ("temperature" ∈ critical_factors v ↔ v.temperature < 35 ∨ 38 < v.temperature) ∧
    ("temperature" ∈ warning_factors v ↔
      ¬(v.temperature < 35 ∨ 38 < v.temperature) ∧
      (v.temperature < 36.1 ∨ 37.2 < v.temperature)) ∧
    ("oxygen level" ∈ critical_factors v ↔ v.spo2 < 90) ∧
    ("oxygen level" ∈ warning_factors v ↔ 90 ≤ v.spo2 ∧ v.spo2 < 95) ∧
    ("blood pressure" ∈ critical_factors v ↔
      140 ≤ v.blood_pressure_systolic ∨ 90 ≤ v.blood_pressure_diastolic) ∧
    ("blood pressure" ∈ warning_factors v ↔
      ¬(140 ≤ v.blood_pressure_systolic ∨ 90 ≤ v.blood_pressure_diastolic) ∧
      (120 ≤ v.blood_pressure_systolic ∨ 80 ≤ v.blood_pressure_diastolic)) ∧
    ("cholesterol" ∈ critical_factors v ↔ 240 ≤ v.cholesterol) ∧
    ("cholesterol" ∈ warning_factors v ↔ 200 ≤ v.cholesterol ∧ v.cholesterol < 240) ∧
    (critical_factors v ≠ [] →
      (rule_based_prediction v dt).health_status = "Critical" ∧
      (rule_based_prediction v dt).confidence_score = 0.9) ∧
    (critical_factors v = [] → 2 ≤ (warning_factors v).length →
      (rule_based_prediction v dt).health_status = "Warning" ∧
      (rule_based_prediction v dt).confidence_score = 0.85) ∧
    (critical_factors v = [] → (warning_factors v).length < 2 →
      (rule_based_prediction v dt).health_status = "Normal" ∧
      (rule_based_prediction v dt).confidence_score = 0.95) := by
  refine ⟨rfl, ?_, ?_, ?_, ?_, ?_, ?_, ?_, ?_, ?_, ?_, ?_, ?_, ?_⟩
  · simp only [critical_factors, List.mem_append, mem_cond_singleton]
    simp
  · simp only [warning_factors, List.mem_append, mem_cond_singleton]
    simp
  · simp only [critical_factors, List.mem_append, mem_cond_singleton]
    simp
  · simp only [warning_factors, List.mem_append, mem_cond_singleton]
    simp
  · simp only [critical_factors, List.mem_append, mem_cond_singleton]
    simp
  · simp only [warning_factors, List.mem_append, mem_cond_singleton]
    simp [not_lt]
  · simp only [critical_factors, List.mem_append, mem_cond_singleton]
    simp
  · simp only [warning_factors, List.mem_append, mem_cond_singleton]
    simp
  · simp only [critical_factors, List.mem_append, mem_cond_singleton]
    simp
  · simp only [warning_factors, List.mem_append, mem_cond_singleton]
    simp [not_le]
    exact and_comm
  · intro hc
    constructor <;> simp [rule_based_prediction, hc]
  · intro hc hw
    constructor <;> simp [rule_based_prediction, hc, hw]
  · intro hc hw
    have hw2 : ¬2 ≤ (warning_factors v).length := by omega
    constructor <;> simp [rule_based_prediction, hc, hw2]

/-- C3 witness: the normal-range sample vitals are valid, produce no
factors and are classified Normal with confidence 0.95. -/
theorem rule_based_engine_spec_witness :
    ValidInput vSample ∧
    (rule_based_prediction vSample 0).health_status = "Normal" ∧
    (rule_based_prediction vSample 0).confidence_score = 0.95 := by
  obtain ⟨-, -, -, -, -, -, -, -, -, -, -, -, -, hnorm⟩ :=
    rule_based_engine_spec vSample (by decide) 0
  exact ⟨by decide,
    hnorm (by norm_num [critical_factors, vSample, hr_normal])
      (by norm_num [warning_factors, vSample, hr_normal])⟩

/-- C4: the traditional CVD score is the sum of the specified points
(age ≥ 65: +3, 55–64: +2, 45–54: +1; systolic ≥ 140 or diastolic ≥ 90:
+3, else systolic ≥ 130 or diastolic ≥ 85: +2; cholesterol ≥ 240: +3,
else in [200, 240): +2; heart rate > 100: +2; spo2 < 95: +2), and the
level is "very_high" when the score is ≥ 10, "high" when ≥ 7,
"moderate" when ≥ 4, else "low". -/
theorem traditional_cvd_spec (v : HealthDataInput) (hv : ValidInput v) :
    (calculate_traditional_cvd_risk v).score =
      (if 65 ≤ v.age then 3 else 0) +
      ((if 55 ≤ v.age ∧ v.age ≤ 64 then 2 else 0) +
       ((if 45 ≤ v.age ∧ v.age ≤ 54 then 1 else 0) +
        ((if 140 ≤ v.blood_pressure_systolic ∨ 90 ≤ v.blood_pressure_diastolic then 3
          else if 130 ≤ v.blood_pressure_systolic ∨ 85 ≤ v.blood_pressure_diastolic then 2
          else 0) +
         ((if 240 ≤ v.cholesterol then 3
           else if 200 ≤ v.cholesterol ∧ v.cholesterol < 240 then 2 else 0) +
          ((if 100 < v.heart_rate then 2 else 0) +
           (if v.spo2 < 95 then 2 else 0)))))) ∧
    (calculate_traditional_cvd_risk v).level =
      (if 10 ≤ (calculate_traditional_cvd_risk v).score then "very_high"
       else if 7 ≤ (calculate_traditional_cvd_risk v).score then "high"
       else if 4 ≤ (calculate_traditional_cvd_risk v).score then "moderate"
       else "low") := by
  constructor
  · have hage : (if 65 ≤ v.age then (3 : ℤ) else if 55 ≤ v.age then 2
        else if 45 ≤ v.age then 1 else 0) =
        (if 65 ≤ v.age then 3 else 0) + ((if 55 ≤ v.age ∧ v.age ≤ 64 then 2 else 0) +
          (if 45 ≤ v.age ∧ v.age ≤ 54 then 1 else 0)) := by
      split_ifs <;> omega
    have hchol : (if 240 ≤ v.cholesterol then (3 : ℤ)
        else if 200 ≤ v.cholesterol then 2 else 0) =
        (if 240 ≤ v.cholesterol then 3
         else if 200 ≤ v.cholesterol ∧ v.cholesterol < 240 then 2 else 0) := by
      split_ifs with h1 h2 h3 h4 <;> try rfl
      · exact absurd ⟨h2, by linarith⟩ h3
      · exact absurd h4.1 h2
    show traditional_score v = _
    unfold traditional_score
    rw [hage, hchol]
    ring
  · rfl

/-- C4 witness: Scenario A vitals are valid, score 0, level "low". -/
theorem traditional_cvd_spec_witness :
    ValidInput vSample ∧
    (calculate_traditional_cvd_risk vSample).score =
      (if 65 ≤ vSample.age then 3 else 0) +
      ((if 55 ≤ vSample.age ∧ vSample.age ≤ 64 then 2 else 0) +
       ((if 45 ≤ vSample.age ∧ vSample.age ≤ 54 then 1 else 0) +
        ((if 140 ≤ vSample.blood_pressure_systolic ∨ 90 ≤ vSample.blood_pressure_diastolic
           then 3
          else if 130 ≤ vSample.blood_pressure_systolic ∨
            85 ≤ vSample.blood_pressure_diastolic then 2
          else 0) +
         ((if 240 ≤ vSample.cholesterol then 3
           else if 200 ≤ vSample.cholesterol ∧ vSample.cholesterol < 240 then 2 else 0) +
          ((if 100 < vSample.heart_rate then 2 else 0) +
           (if vSample.spo2 < 95 then 2 else 0)))))) :=
  ⟨by decide, (traditional_cvd_spec vSample (by decide)).1⟩

/-- C5: the Framingham-style percentage is
`100·(1 − 0.88936^exp(0.0483·age + 0.6545·ln chol + 0.0221·ln sys −
0.8396·ln 50 − 3.0618))` clamped into [1, 30]; the reported percentage
field is its one-decimal rounding, and the level is "high" when the
clamped percentage is ≥ 20, "moderate" when ≥ 10, else "low". -/
theorem framingham_spec (v : HealthDataInput) (hv : ValidInput v) :
    framingham_percentage v =
      max 1 (min 30 (100 * (1 - (0.88936 : ℝ) ^ Real.exp
        (0.0483 * (v.age : ℝ) + 0.6545 * Real.log (v.cholesterol : ℝ) +
         0.0221 * Real.log (v.blood_pressure_systolic : ℝ) -
         0.8396 * Real.log 50 - 3.0618)))) ∧
    1 ≤ framingham_percentage v ∧ framingham_percentage v ≤ 30 ∧
    (calculate_framingham_score v).percentage = round1 (framingham_percentage v) ∧
    (calculate_framingham_score v).level =
      (if 20 ≤ framingham_percentage v then "high"
       else if 10 ≤ framingham_percentage v then "moderate" else "low") := by
  refine ⟨?_, ?_, ?_, rfl, rfl⟩
  · unfold framingham_percentage framingham_sum_factors
    have harg : (v.age : ℝ) * 0.0483 + Real.log (v.cholesterol : ℝ) * 0.6545 +
        Real.log (v.blood_pressure_systolic : ℝ) * 0.0221 + Real.log 50 * (-0.8396) -
          3.0618 =
        0.0483 * (v.age : ℝ) + 0.6545 * Real.log (v.cholesterol : ℝ) +
          0.0221 * Real.log (v.blood_pressure_systolic : ℝ) - 0.8396 * Real.log 50 -
          3.0618 := by
      ring
    rw [harg]
  · exact le_max_left 1 _
  · exact max_le (by norm_num) (min_le_left _ _)

/-- C5 witness: Scenario A vitals are valid and their clamped Framingham
percentage lies in [1, 30]. -/
theorem framingham_spec_witness :
    ValidInput vSample ∧
    1 ≤ framingham_percentage vSample ∧ framingham_percentage vSample ≤ 30 :=
  ⟨by decide, (framingham_spec vSample (by decide)).2.1,
    (framingham_spec vSample (by decide)).2.2.1⟩

/-- C1 counterexample: it is not the case that a runtime failure of the
loaded random-forest tier falls back to the next tier (the loaded,
succeeding neural-network tier): with both artifacts loaded, a
random-forest inference error and a succeeding neural network, the
orchestrator reports "rule_based", not "neural_network". -/
theorem orchestrator_next_tier_cex :
    ¬ (∀ (env : ModelEnv) (v : HealthDataInput) (dt_ml dt_rb : ℚ) (f g : Classifier)
        (e : ClassifierError) (p : ℤ) (c : ℚ),
        env.models_loaded = true → env.rf_model = some f →
        f (features v) = .error e → env.nn_model = some g →
        g (features v) = .ok (p, c) →
        (predict_health_status env v dt_ml dt_rb).prediction_details.model_used =
          "neural_network") := by
  intro h
  have h1 := h envBothRfFails vSample 0 0 rfFailing nnConstant .inferenceError 0 (9/10)
    rfl rfl rfl rfl rfl
  have h2 : (predict_health_status envBothRfFails vSample 0 0).prediction_details.model_used
      = "rule_based" := rfl
  rw [h2] at h1
  exact absurd h1 (by decide)

/-- C1 (amended): the orchestrator selects tiers in the fixed preference
order — random forest if loaded, else neural network if loaded, else the
rule-based engine — and any classifier failure at runtime triggers
immediate fallback directly to the rule-based engine (bypassing any
remaining classifier tier), so that every call returns a result whose
`model_used` is one of the three tiers and never raises. -/
theorem predict_status_orchestration (env : ModelEnv) (v : HealthDataInput)
    (dt_ml dt_rb : ℚ) :
    (env.models_loaded = false →
      predict_health_status env v dt_ml dt_rb = rule_based_prediction v dt_rb) ∧
    (∀ f, env.models_loaded = true → env.rf_model = some f →
      (∀ p c, f (features v) = .ok (p, c) →
        predict_health_status env v dt_ml dt_rb = ml_prediction v "random_forest" p c dt_ml) ∧
      (∀ e, f (features v) = .error e →
        predict_health_status env v dt_ml dt_rb = rule_based_prediction v dt_rb)) ∧
    (∀ g, env.models_loaded = true → env.rf_model = none → env.nn_model = some g →
      (∀ p c, g (features v) = .ok (p, c) →
        predict_health_status env v dt_ml dt_rb = ml_prediction v "neural_network" p c dt_ml) ∧
      (∀ e, g (features v) = .error e →
        predict_health_status env v dt_ml dt_rb = rule_based_prediction v dt_rb)) ∧
    (env.models_loaded = true → env.rf_model = none → env.nn_model = none →
      predict_health_status env v dt_ml dt_rb = rule_based_prediction v dt_rb) ∧
    ((predict_health_status env v dt_ml dt_rb).prediction_details.model_used = "random_forest" ∨
     (predict_health_status env v dt_ml dt_rb).prediction_details.model_used = "neural_network" ∨
     (predict_health_status env v dt_ml dt_rb).prediction_details.model_used = "rule_based") := by
  refine ⟨?_, ?_, ?_, ?_, ?_⟩
  · intro h
    simp [predict_health_status, h]
  · intro f hl hrf
    constructor
    · intro p c hok
      simp [predict_health_status, hl, hrf, predict_rf, hok]
    · intro e herr
      simp [predict_health_status, hl, hrf, predict_rf, herr]
  · intro g hl hrf hnn
    constructor
    · intro p c hok
      simp [predict_health_status, predict_nn, hl, hrf, hnn, hok]
    · intro e herr
      simp [predict_health_status, predict_nn, hl, hrf, hnn, herr]
  · intro hl hrf hnn
    simp [predict_health_status, hl, hrf, hnn]
  · rcases env with ⟨ml, rf, nn⟩
    cases ml with
    | false =>
      right; right
      simp [predict_health_status, rule_based_prediction]
    | true =>
      cases rf with
      | some f =>
        rcases hf : f (features v) with _ | r
        · right; right
          simp [predict_health_status, predict_rf, hf, rule_based_prediction]
        · obtain ⟨p, c⟩ := r
          left
          simp [predict_health_status, predict_rf, hf, ml_prediction]
      | none =>
        cases nn with
        | some g =>
          rcases hg : g (features v) with _ | r
          · right; right
            simp [predict_health_status, predict_nn, hg, rule_based_prediction]
          · obtain ⟨p, c⟩ := r
            right; left
            simp [predict_health_status, predict_nn, hg, ml_prediction]
        | none =>
          right; right
          simp [predict_health_status, rule_based_prediction]

/-- C1 witness: with no artifacts loaded the orchestrator returns the
rule-based prediction. -/
theorem predict_status_orchestration_witness :
    predict_health_status envNoModels vSample 1 1 = rule_based_prediction vSample 1 :=
  (predict_status_orchestration envNoModels vSample 1 1).1 rfl

/-- C2: `model_used` names the tier whose prediction is contained in the
result — "random_forest" only for the random forest's own successful
output, "neural_network" only for the neural network's own successful
output (never a silent inner fallback), "rule_based" exactly for the
rule-based result — and when no classifier artifacts are loaded,
`model_used` is always "rule_based". -/
theorem model_used_reflects_tier (env : ModelEnv) (v : HealthDataInput)
    (dt_ml dt_rb : ℚ) :
    ((predict_health_status env v dt_ml dt_rb).prediction_details.model_used =
        "random_forest" →
      ∃ f p c, env.rf_model = some f ∧ f (features v) = .ok (p, c) ∧
        predict_health_status env v dt_ml dt_rb = ml_prediction v "random_forest" p c dt_ml) ∧
    ((predict_health_status env v dt_ml dt_rb).prediction_details.model_used =
        "neural_network" →
      env.rf_model = none ∧ ∃ g p c, env.nn_model = some g ∧ g (features v) = .ok (p, c) ∧
        predict_health_status env v dt_ml dt_rb = ml_prediction v "neural_network" p c dt_ml) ∧
    ((predict_health_status env v dt_ml dt_rb).prediction_details.model_used =
        "rule_based" →
      predict_health_status env v dt_ml dt_rb = rule_based_prediction v dt_rb) ∧
    (env.rf_model = none → env.nn_model = none →
      (predict_health_status env v dt_ml dt_rb).prediction_details.model_used =
        "rule_based") := by
  rcases env with ⟨ml, rf, nn⟩
  cases ml with
  | false =>
    have hpred : predict_health_status ⟨false, rf, nn⟩ v dt_ml dt_rb =
        rule_based_prediction v dt_rb := by
      simp [predict_health_status]
    refine ⟨?_, ?_, ?_, ?_⟩ <;> rw [hpred]
    · intro h
      simp [rule_based_prediction] at h
    · intro h
      simp [rule_based_prediction] at h
    · intro _
      rfl
    · intro _ _
      simp [rule_based_prediction]
  | true =>
    cases rf with
    | some f =>
      rcases hf : f (features v) with e | r
      · have hpred : predict_health_status ⟨true, some f, nn⟩ v dt_ml dt_rb =
            rule_based_prediction v dt_rb := by
          simp [predict_health_status, predict_rf, hf]
        refine ⟨?_, ?_, ?_, ?_⟩
        · intro h
          rw [hpred] at h
          simp [rule_based_prediction] at h
        · intro h
          rw [hpred] at h
          simp [rule_based_prediction] at h
        · intro _
          exact hpred
        · intro hrf _
          simp at hrf
      · obtain ⟨p, c⟩ := r
        have hpred : predict_health_status ⟨true, some f, nn⟩ v dt_ml dt_rb =
            ml_prediction v "random_forest" p c dt_ml := by
          simp [predict_health_status, predict_rf, hf]
        refine ⟨?_, ?_, ?_, ?_⟩
        · intro _
          exact ⟨f, p, c, rfl, hf, hpred⟩
        · intro h
          rw [hpred] at h
          simp [ml_prediction] at h
        · intro h
          rw [hpred] at h
          simp [ml_prediction] at h
        · intro hrf _
          simp at hrf
    | none =>
      cases nn with
      | some g =>
        rcases hg : g (features v) with e | r
        · have hpred : predict_health_status ⟨true, none, some g⟩ v dt_ml dt_rb =
              rule_based_prediction v dt_rb := by
            simp [predict_health_status, predict_nn, hg]
          refine ⟨?_, ?_, ?_, ?_⟩
          · intro h
            rw [hpred] at h
            simp [rule_based_prediction] at h
          · intro h
            rw [hpred] at h
            simp [rule_based_prediction] at h
          · intro _
            exact hpred
          · intro _ hnn
            simp at hnn
        · obtain ⟨p, c⟩ := r
          have hpred : predict_health_status ⟨true, none, some g⟩ v dt_ml dt_rb =
              ml_prediction v "neural_network" p c dt_ml := by
            simp [predict_health_status, predict_nn, hg]
          refine ⟨?_, ?_, ?_, ?_⟩
          · intro h
            rw [hpred] at h
            simp [ml_prediction] at h
          · intro _
            exact ⟨rfl, g, p, c, rfl, hg, hpred⟩
          · intro h
            rw [hpred] at h
            simp [ml_prediction] at h
          · intro _ hnn
            simp at hnn
      | none =>
        have hpred : predict_health_status ⟨true, none, none⟩ v dt_ml dt_rb =
            rule_based_prediction v dt_rb := by
          simp [predict_health_status]
        refine ⟨?_, ?_, ?_, ?_⟩ <;> rw [hpred]
        · intro h
          simp [rule_based_prediction] at h
        · intro h
          simp [rule_based_prediction] at h
        · intro _
          rfl
        · intro _ _
          simp [rule_based_prediction]

/-- C2 witness: loading succeeded but neither artifact is present, so
`model_used` is "rule_based". -/
theorem model_used_reflects_tier_witness :
    (predict_health_status envLoadedEmpty vSample 1 1).prediction_details.model_used =
      "rule_based" :=
  (model_used_reflects_tier envLoadedEmpty vSample 1 1).2.2.2 rfl rfl

/-- C6: the risk combiner maps each method's level to the ordinal
Low 1 / Moderate 2 / High 3 / VeryHigh 4, takes the weighted mean with
weights 0.3 / 0.4 / 0.3, buckets the mean at 3.5 / 2.5 / 1.5, averages
whichever of the epidemiological and model-based percentages are present
(default 10.0 when neither is), and takes the model-based confidence
when positive, else 0.8. -/
theorem combine_risk_scores_spec (t f a : CVDScoreDict)
    (ht : t.level = "low" ∨ t.level = "moderate" ∨ t.level = "high" ∨ t.level = "very_high")
    (hf : f.level = "low" ∨ f.level = "moderate" ∨ f.level = "high" ∨ f.level = "very_high")
    (ha : a.level = "low" ∨ a.level = "moderate" ∨ a.level = "high" ∨
      a.level = "very_high") :
    (combine_risk_scores t f a).level =
      (if 3.5 ≤ spec_level_ordinal t.level * 0.3 + spec_level_ordinal f.level * 0.4 +
          spec_level_ordinal a.level * 0.3 then "Very High"
       else if 2.5 ≤ spec_level_ordinal t.level * 0.3 + spec_level_ordinal f.level * 0.4 +
          spec_level_ordinal a.level * 0.3 then "High"
       else if 1.5 ≤ spec_level_ordinal t.level * 0.3 + spec_level_ordinal f.level * 0.4 +
          spec_level_ordinal a.level * 0.3 then "Moderate"
       else "Low") ∧
    (combine_risk_scores t f a).percentage =
      (match f.percentage, a.percentage with
       | some p, some q => round1 ((p + q) / 2)
       | some p, none => round1 p
       | none, some q => round1 q
       | none, none => 10) ∧
    (combine_risk_scores t f a).confidence =
      (match a.confidence with
       | some c => if 0 < c then c else 0.8
       | none => (0.8 : ℚ)) := by
  have hw : combined_weighted_score t f a =
      spec_level_ordinal t.level * 0.3 + spec_level_ordinal f.level * 0.4 +
        spec_level_ordinal a.level * 0.3 := by
    unfold combined_weighted_score
    rcases ht with h | h | h | h <;> rcases hf with h2 | h2 | h2 | h2 <;>
      rcases ha with h3 | h3 | h3 | h3 <;>
      rw [h, h2, h3] <;> simp [level_score, spec_level_ordinal]
  refine ⟨?_, ?_, ?_⟩
  · show (if (3.5 : ℚ) ≤ combined_weighted_score t f a then "Very High"
      else if 2.5 ≤ combined_weighted_score t f a then "High"
      else if 1.5 ≤ combined_weighted_score t f a then "Moderate" else "Low") = _
    rw [hw]
  · rcases hfp : f.percentage with _ | p <;> rcases hap : a.percentage with _ | q <;>
      simp [combine_risk_scores, hfp, hap] <;> norm_num [round1]
  · rcases hac : a.confidence with _ | c <;> simp [combine_risk_scores, hac]

/-- C6 witness: a concrete triple of component scores; the combined
confidence equals the model-based confidence rule applied to it. -/
theorem combine_risk_scores_spec_witness :
    (combine_risk_scores ⟨"low", none, none⟩ ⟨"moderate", some 12, none⟩
        ⟨"low", some 5, some (3/4)⟩).confidence =
      (match (some (3/4) : Option ℚ) with
       | some c => if 0 < c then c else 0.8
       | none => (0.8 : ℚ)) :=
  (combine_risk_scores_spec ⟨"low", none, none⟩ ⟨"moderate", some 12, none⟩
    ⟨"low", some 5, some (3/4)⟩ (Or.inl rfl) (Or.inr (Or.inl rfl)) (Or.inl rfl)).2.2

/-- C7: the recommendation list is exactly the first six entries, in
generation order, of: tier-conditioned recommendations (cardiology
referral for "High"/"Very High", primary care for "Moderate"), then
factor-specific recommendations (hypertension, then high cholesterol,
then elevated heart rate), then general lifestyle recommendations only
when the level is not "Low"; in particular it never has more than six
entries. -/
theorem recommendations_spec (level : String) (rfs : List RiskFactor) :
    generate_cvd_recommendations level rfs =
      ((if level = "High" ∨ level = "Very High" then
          ["Schedule an appointment with a cardiologist within 2 weeks",
           "Request complete cardiac workup including ECG and stress test"]
        else if level = "Moderate" then
          ["Discuss cardiovascular risk with your primary care physician",
           "Consider preventive cardiology consultation"]
        else []) ++
       ((if rfs.any (fun f => f.factor = "Hypertension") then
          ["Monitor blood pressure daily and maintain a log",
           "Reduce sodium intake to <2,300mg per day",
           "Discuss blood pressure medications with your doctor"] else []) ++
        (if rfs.any (fun f => f.factor = "High Cholesterol") then
          ["Adopt a heart-healthy diet (Mediterranean or DASH)",
           "Engage in 150 minutes of moderate exercise weekly",
           "Consider statin therapy if lifestyle changes insufficient"] else []) ++
        (if rfs.any (fun f => f.factor = "Elevated Resting Heart Rate") then
          ["Practice stress reduction techniques (meditation, yoga)",
           "Limit caffeine and stimulant intake"] else [])) ++
       (if level ≠ "Low" then
          ["If you smoke, seek help to quit immediately",
           "Maintain a healthy weight (BMI 18.5-24.9)",
           "Ensure 7-9 hours of quality sleep nightly"]
        else [])).take 6 ∧
    (generate_cvd_recommendations level rfs).length ≤ 6 := by
  constructor
  · rfl
  · simp only [generate_cvd_recommendations, List.length_take]
    exact min_le_left _ _

/-- C8: the identified risk-factor list is the Major factors
(Hypertension, High Cholesterol, Advanced Age, in detection order)
followed by the Minor factors (Elevated Resting Heart Rate, Low Oxygen
Saturation, in detection order); every Major entry precedes every Minor
entry. -/
theorem risk_factor_ordering (v : HealthDataInput) (hv : ValidInput v) :
    identify_cvd_risk_factors v =
      ((if 140 ≤ v.blood_pressure_systolic ∨ 90 ≤ v.blood_pressure_diastolic then
          [hypertensionFactor v] else []) ++
       (if 240 ≤ v.cholesterol then [highCholesterolFactor v] else []) ++
       (if 65 ≤ v.age then [advancedAgeFactor v] else [])) ++
      ((if 80 < v.heart_rate then [elevatedHRFactor v] else []) ++
       (if v.spo2 < 95 then [lowSpo2Factor v] else [])) ∧
    (identify_cvd_risk_factors v).Pairwise
      (fun x y => severity_key x ≤ severity_key y) := by
  have hsorted : (detected_risk_factors v).Pairwise
      (fun a b => severity_key a ≤ severity_key b) := by
    unfold detected_risk_factors
    split_ifs <;>
      simp [List.pairwise_append, severity_key, hypertensionFactor, highCholesterolFactor,
        advancedAgeFactor, elevatedHRFactor, lowSpo2Factor]
  have hsorted2 : (detected_risk_factors v).Pairwise
      (fun a b => (decide (severity_key a ≤ severity_key b)) = true) :=
    hsorted.imp (fun h => decide_eq_true h)
  constructor
  · show (detected_risk_factors v).mergeSort _ = _
    rw [List.mergeSort_of_sorted hsorted2]
    simp [detected_risk_factors, List.append_assoc]
  · have htotal : ∀ a b : RiskFactor,
        (decide (severity_key a ≤ severity_key b) ||
          decide (severity_key b ≤ severity_key a)) = true := by
      intro a b
      simp only [Bool.or_eq_true, decide_eq_true_eq]
      exact Nat.le_total _ _
    have htrans : ∀ a b c : RiskFactor,
        decide (severity_key a ≤ severity_key b) = true →
        decide (severity_key b ≤ severity_key c) = true →
        decide (severity_key a ≤ severity_key c) = true := by
      intro a b c h1 h2
      simp only [decide_eq_true_eq] at *
      omega
    have := List.sorted_mergeSort htrans htotal (detected_risk_factors v)
    exact this.imp (fun h => of_decide_eq_true h)

/-- C8 witness: the normal-range sample vitals are valid and produce a
severity-sorted factor list. -/
theorem risk_factor_ordering_witness :
    (identify_cvd_risk_factors vSample).Pairwise
      (fun x y => severity_key x ≤ severity_key y) :=
  (risk_factor_ordering vSample (by decide)).2

/-- One-decimal rounding is monotone. -/
theorem round1_le_round1 {α : Type} [LinearOrderedField α] [FloorRing α] {x y : α}
    (h : x ≤ y) : round1 x ≤ round1 y := by
  unfold round1
  have hf : ⌊(10 : α) * x + 1 / 2⌋ ≤ ⌊(10 : α) * y + 1 / 2⌋ :=
    Int.floor_mono (by linarith)
  rw [round_eq, round_eq]
  have hc : ((⌊(10 : α) * x + 1 / 2⌋ : ℤ) : α) ≤ ((⌊(10 : α) * y + 1 / 2⌋ : ℤ) : α) := by
    exact_mod_cast hf
  linarith

/-- One-decimal rounding fixes integers. -/
theorem round1_intCast {α : Type} [LinearOrderedField α] [FloorRing α] (n : ℤ) :
    round1 ((n : α)) = n := by
  unfold round1
  rw [show (10 : α) * (n : α) = ((10 * n : ℤ) : α) by push_cast; ring, round_intCast]
  push_cast
  ring

/-- One-decimal rounding fixes one half. -/
theorem round1_half {α : Type} [LinearOrderedField α] [FloorRing α] :
    round1 ((1 : α) / 2) = 1 / 2 := by
  unfold round1
  rw [show (10 : α) * (1 / 2) = ((5 : ℤ) : α) by push_cast; ring, round_intCast]
  push_cast
  ring

/-- A lower integer bound survives one-decimal rounding. -/
theorem intCast_le_round1 {α : Type} [LinearOrderedField α] [FloorRing α] {n : ℤ}
    {x : α} (h : (n : α) ≤ x) : (n : α) ≤ round1 x := by
  have := round1_le_round1 h
  rwa [round1_intCast] at this

/-- An upper integer bound survives one-decimal rounding. -/
theorem round1_le_intCast {α : Type} [LinearOrderedField α] [FloorRing α] {n : ℤ}
    {x : α} (h : x ≤ (n : α)) : round1 x ≤ (n : α) := by
  have := round1_le_round1 h
  rwa [round1_intCast] at this

/-- C9 counterexample: with no classifier artifacts loaded, two calls on
identical vitals at different measured durations do not return identical
results — the `prediction_time_ms` field differs. -/
theorem status_predictor_pure_cex :
    ¬ (∀ (v : HealthDataInput) (dt_ml dt_rb dt_ml2 dt_rb2 : ℚ),
        predict_health_status envNoModels v dt_ml dt_rb =
          predict_health_status envNoModels v dt_ml2 dt_rb2) := by
  intro h
  have h1 := h vSample 0 1 0 2
  have h2 := congrArg (fun r => r.prediction_details.prediction_time_ms) h1
  have e1 : predict_health_status envNoModels vSample 0 1 =
      rule_based_prediction vSample 1 := rfl
  have e2 : predict_health_status envNoModels vSample 0 2 =
      rule_based_prediction vSample 2 := rfl
  rw [e1, e2] at h2
  simp only [rule_based_prediction] at h2
  norm_num [round2] at h2

/-- C9 (amended): with no classifier artifacts loaded, repeated calls on
identical vitals agree in every field except the reported
`prediction_time_ms` (and the status is always produced by the
rule-based tier); the risk-factor list and the recommendation list are
identical across repeated calls with identical vitals. -/
theorem prediction_deterministic (env : ModelEnv) (v : HealthDataInput)
    (dt_ml1 dt_rb1 dt_ml2 dt_rb2 dt1 dt2 : ℚ)
    (hrf : env.rf_model = none) (hnn : env.nn_model = none) :
    ((predict_health_status env v dt_ml1 dt_rb1).health_status =
       (predict_health_status env v dt_ml2 dt_rb2).health_status ∧
     (predict_health_status env v dt_ml1 dt_rb1).confidence_score =
       (predict_health_status env v dt_ml2 dt_rb2).confidence_score ∧
     (predict_health_status env v dt_ml1 dt_rb1).suggested_action =
       (predict_health_status env v dt_ml2 dt_rb2).suggested_action ∧
     (predict_health_status env v dt_ml1 dt_rb1).prediction_details.model_used =
       "rule_based" ∧
     (predict_health_status env v dt_ml2 dt_rb2).prediction_details.model_used =
       "rule_based" ∧
     (predict_health_status env v dt_ml1 dt_rb1).prediction_details.features =
       (predict_health_status env v dt_ml2 dt_rb2).prediction_details.features ∧
     (predict_health_status env v dt_ml1 dt_rb1).prediction_details.risk_factors =
       (predict_health_status env v dt_ml2 dt_rb2).prediction_details.risk_factors) ∧
    (predict_heart_disease_risk env v dt1).risk_factors =
      (predict_heart_disease_risk env v dt2).risk_factors ∧
    (predict_heart_disease_risk env v dt1).recommendations =
      (predict_heart_disease_risk env v dt2).recommendations := by
  obtain ⟨ml, rf, nn⟩ := env
  simp only at hrf hnn
  subst hrf
  subst hnn
  cases ml <;> exact ⟨⟨rfl, rfl, rfl, rfl, rfl, rfl, rfl⟩, rfl, rfl⟩

/-- C9 witness: concrete repeated calls with no artifacts loaded agree on
status and recommendations. -/
theorem prediction_deterministic_witness :
    (predict_health_status envNoModels vSample 1 1).health_status =
      (predict_health_status envNoModels vSample 2 2).health_status ∧
    (predict_heart_disease_risk envNoModels vSample 1).recommendations =
      (predict_heart_disease_risk envNoModels vSample 2).recommendations :=
  ⟨(prediction_deterministic envNoModels vSample 1 1 2 2 1 2 rfl rfl).1.1,
   (prediction_deterministic envNoModels vSample 1 1 2 2 1 2 rfl rfl).2.2⟩

/-- C10: the epidemiological percentage is always present and lies in
[1, 30]; the model-based percentage is always present and lies in
[0, 30], being 5, 15 or 25 on the classifier path and the rounded
`min(30, points·3.5)` on the heuristic path; hence the combiner's
default 10.0 is unreachable, the final risk percentage is the rounded
arithmetic mean of exactly those two percentages, and it lies in
[0.5, 30]. -/
theorem cvd_percentages_present (env : ModelEnv) (v : HealthDataInput)
    (hv : ValidInput v) (dt : ℚ) :
    1 ≤ (calculate_framingham_score v).percentage ∧
    (calculate_framingham_score v).percentage ≤ 30 ∧
    0 ≤ (calculate_ai_cvd_risk env v).percentage ∧
    (calculate_ai_cvd_risk env v).percentage ≤ 30 ∧
    (((calculate_ai_cvd_risk env v).ml_based = true ∧
       ((calculate_ai_cvd_risk env v).percentage = 5 ∨
        (calculate_ai_cvd_risk env v).percentage = 15 ∨
        (calculate_ai_cvd_risk env v).percentage = 25)) ∨
     ((calculate_ai_cvd_risk env v).ml_based = false ∧
       (calculate_ai_cvd_risk env v).percentage =
         round1 (min 30 (ai_pattern_score v * 3.5)))) ∧
    (predict_heart_disease_risk env v dt).risk_percentage =
      round1 (((calculate_framingham_score v).percentage +
        ((calculate_ai_cvd_risk env v).percentage : ℝ)) / 2) ∧
    1 / 2 ≤ (predict_heart_disease_risk env v dt).risk_percentage ∧
    (predict_heart_disease_risk env v dt).risk_percentage ≤ 30 := by
  have hfp : (calculate_framingham_score v).percentage =
      round1 (framingham_percentage v) := rfl
  have hfb1 : (1 : ℝ) ≤ framingham_percentage v := le_max_left 1 _
  have hfb2 : framingham_percentage v ≤ 30 :=
    max_le (by norm_num) (min_le_left _ _)
  have hf1 : (1 : ℝ) ≤ (calculate_framingham_score v).percentage := by
    rw [hfp]
    have h1 : ((1 : ℤ) : ℝ) ≤ framingham_percentage v := by exact_mod_cast hfb1
    have h2 := intCast_le_round1 h1
    exact_mod_cast h2
  have hf30 : (calculate_framingham_score v).percentage ≤ 30 := by
    rw [hfp]
    have h1 : framingham_percentage v ≤ ((30 : ℤ) : ℝ) := by exact_mod_cast hfb2
    have h2 := round1_le_intCast h1
    exact_mod_cast h2
  have hs : 0 ≤ ai_pattern_score v := by
    unfold ai_pattern_score
    split_ifs <;> norm_num
  have hmin0 : (0 : ℚ) ≤ min 30 (ai_pattern_score v * 3.5) :=
    le_min (by norm_num) (by nlinarith)
  have hmin30 : min 30 (ai_pattern_score v * 3.5) ≤ (30 : ℚ) := min_le_left _ _
  have hai : 0 ≤ (calculate_ai_cvd_risk env v).percentage ∧
      (calculate_ai_cvd_risk env v).percentage ≤ 30 ∧
      (((calculate_ai_cvd_risk env v).ml_based = true ∧
         ((calculate_ai_cvd_risk env v).percentage = 5 ∨
          (calculate_ai_cvd_risk env v).percentage = 15 ∨
          (calculate_ai_cvd_risk env v).percentage = 25)) ∨
       ((calculate_ai_cvd_risk env v).ml_based = false ∧
         (calculate_ai_cvd_risk env v).percentage =
           round1 (min 30 (ai_pattern_score v * 3.5)))) := by
    have hmin0' : ((0 : ℤ) : ℚ) ≤ min 30 (ai_pattern_score v * 3.5) := by
      exact_mod_cast hmin0
    have hmin30' : min 30 (ai_pattern_score v * 3.5) ≤ ((30 : ℤ) : ℚ) := by
      exact_mod_cast hmin30
    have hheur0 : (0 : ℚ) ≤ round1 (min 30 (ai_pattern_score v * 3.5)) := by
      have := intCast_le_round1 hmin0'
      exact_mod_cast this
    have hheur30 : round1 (min 30 (ai_pattern_score v * 3.5)) ≤ (30 : ℚ) := by
      have := round1_le_intCast hmin30'
      exact_mod_cast this
    by_cases hml : env.models_loaded = true ∧ env.rf_model.isSome = true
    · rcases hr : predict_rf env (features v) with e | r
      · have hperc : (calculate_ai_cvd_risk env v).percentage =
            round1 (min 30 (ai_pattern_score v * 3.5)) := by
          simp [calculate_ai_cvd_risk, hml, hr]
        have hmlb : (calculate_ai_cvd_risk env v).ml_based = false := by
          simp [calculate_ai_cvd_risk, hml, hr]
        rw [hperc]
        exact ⟨hheur0, hheur30, Or.inr ⟨hmlb, rfl⟩⟩
      · obtain ⟨p, c⟩ := r
        have hperc : (calculate_ai_cvd_risk env v).percentage =
            (if p = 2 then 25 else if p = 1 then 15 else 5) := by
          simp [calculate_ai_cvd_risk, hml, hr]
        have hmlb : (calculate_ai_cvd_risk env v).ml_based = true := by
          simp [calculate_ai_cvd_risk, hml, hr]
        rw [hperc]
        refine ⟨?_, ?_, Or.inl ⟨hmlb, ?_⟩⟩ <;> split_ifs <;> norm_num
    · have hperc : (calculate_ai_cvd_risk env v).percentage =
          round1 (min 30 (ai_pattern_score v * 3.5)) := by
        simp [calculate_ai_cvd_risk, hml]
      have hmlb : (calculate_ai_cvd_risk env v).ml_based = false := by
        simp [calculate_ai_cvd_risk, hml]
      rw [hperc]
      exact ⟨hheur0, hheur30, Or.inr ⟨hmlb, rfl⟩⟩
  obtain ⟨hai0, hai30, haipath⟩ := hai
  have hcomb : (predict_heart_disease_risk env v dt).risk_percentage =
      round1 (((calculate_framingham_score v).percentage +
        ((calculate_ai_cvd_risk env v).percentage : ℝ)) / 2) := by
    simp only [predict_heart_disease_risk, combine_risk_scores, framinghamDict, aiDict,
      traditionalDict]
    norm_num
    rw [if_neg (by simp)]
  have haiR0 : (0 : ℝ) ≤ ((calculate_ai_cvd_risk env v).percentage : ℝ) := by
    exact_mod_cast hai0
  have haiR30 : ((calculate_ai_cvd_risk env v).percentage : ℝ) ≤ 30 := by
    exact_mod_cast hai30
  refine ⟨hf1, hf30, hai0, hai30, haipath, hcomb, ?_, ?_⟩
  · rw [hcomb]
    have hhalf : (1 : ℝ) / 2 ≤
        ((calculate_framingham_score v).percentage +
          ((calculate_ai_cvd_risk env v).percentage : ℝ)) / 2 := by
      linarith
    have := round1_le_round1 hhalf
    rwa [round1_half] at this
  · rw [hcomb]
    exact_mod_cast round1_le_intCast (n := 30) (by push_cast; linarith)

/-- C10 witness: concrete valid vitals with no artifacts loaded; the
combined risk percentage is at least one half. -/
theorem cvd_percentages_present_witness :
    ValidInput vSample ∧
    1 / 2 ≤ (predict_heart_disease_risk envNoModels vSample 0).risk_percentage :=
  ⟨by decide,
   (cvd_percentages_present envNoModels vSample (by decide) 0).2.2.2.2.2.2.1⟩

end HealthMonitor
